import Mathlib

/-!
Verification of the terminal-control module `src/runtime/ops/tty.rs`.

The module has three operations sharing one per-descriptor saved-mode slot:
`op_stdin_set_raw` (Mode Controller), `op_isatty` (TTY Detector) and
`op_console_size` (Size Query).  Each operation has a Windows branch and a
POSIX (unix) branch selected at build time; both branches are embedded here.
Machine words (`DWORD`, `tcflag_t`) are modelled as `Nat` values below `2^32`,
with bit clearing written as `&&&` against the 32-bit complement of the mask,
exactly as the Rust code writes `x & !mask` on a 32-bit integer type.
OS calls that can fail (`GetConsoleMode`, `SetConsoleMode`, `tcgetattr`,
`tcsetattr`, descriptor resolution) are modelled by success flags carried in
the state, so that every control path of the source is reachable in the model.
-/

/-- Error taxonomy of the module (spec §7).  `ResourceNotFound` is the failure
of `StdFileResource::with_file` when the rid does not map to an open handle;
`InvalidHandle` is the `custom_error("ReferenceError", "null handle")` raised
for a null Windows handle; `IoError` wraps `Error::last_os_error()` and
carries the native OS error code; `NotSupported` is
`deno_core::error::not_supported()`. -/
inductive TtyError where
  | NotSupported : TtyError
  | ResourceNotFound : TtyError
  | InvalidHandle : TtyError
  | IoError : Nat → TtyError
deriving DecidableEq, Repr

/-! ## Windows branch: console mode words

Constants from `winapi::um::wincon` (values of the Windows console API). -/

def ENABLE_PROCESSED_INPUT : Nat := 0x1
def ENABLE_LINE_INPUT : Nat := 0x2
def ENABLE_ECHO_INPUT : Nat := 0x4
def ENABLE_VIRTUAL_TERMINAL_INPUT : Nat := 0x200

/-- `COOKED_MODE` from tty.rs lines 45-51:
`ENABLE_LINE_INPUT | ENABLE_ECHO_INPUT | ENABLE_PROCESSED_INPUT`. -/
def COOKED_MODE : Nat :=
  ENABLE_LINE_INPUT ||| ENABLE_ECHO_INPUT ||| ENABLE_PROCESSED_INPUT

/-- 32-bit bitwise complement: the Rust `!mask` on a `DWORD`/`tcflag_t`. -/
def flagNot (mask : Nat) : Nat := (2 ^ 32 - 1) ^^^ mask

/-- tty.rs line 54: `original_mode & !COOKED_MODE | ENABLE_VIRTUAL_TERMINAL_INPUT`. -/
def mode_raw_input_on (original_mode : Nat) : Nat :=
  original_mode &&& flagNot COOKED_MODE ||| ENABLE_VIRTUAL_TERMINAL_INPUT

/-- tty.rs line 59: `original_mode & !ENABLE_VIRTUAL_TERMINAL_INPUT | COOKED_MODE`. -/
def mode_raw_input_off (original_mode : Nat) : Nat :=
  original_mode &&& flagNot ENABLE_VIRTUAL_TERMINAL_INPUT ||| COOKED_MODE

/-- State visible to the Windows branch of `op_stdin_set_raw`.  `mode` is the
console device's current mode word (read by `GetConsoleMode`, written by
`SetConsoleMode`).  The `Bool` fields record whether each external step
succeeds when attempted, and `os_error` is the value
`Error::last_os_error()` would report.  The Windows branch keeps no
saved-mode slot: it recomputes the cooked mode by masking. -/
structure WinSys where
  resolve_ok : Bool
  handle_invalid : Bool
  handle_null : Bool
  get_mode_ok : Bool
  set_mode_ok : Bool
  mode : Nat
  os_error : Nat
deriving DecidableEq, Repr

/-- Windows branch of `op_stdin_set_raw` (tty.rs lines 76-116).  The `cbreak`
rejection is the first statement, before `StdFileResource::with_file`
resolves rid 0.  Returns the result together with the post-call state. -/
def op_stdin_set_raw_win (is_raw cbreak : Bool) (s : WinSys) :
    Except TtyError Unit × WinSys :=
  if cbreak then (Except.error TtyError.NotSupported, s)
  else if !s.resolve_ok then (Except.error TtyError.ResourceNotFound, s)
  else if s.handle_invalid then (Except.error (TtyError.IoError s.os_error), s)
  else if s.handle_null then (Except.error TtyError.InvalidHandle, s)
  else if !s.get_mode_ok then (Except.error (TtyError.IoError s.os_error), s)
  else
    let new_mode :=
      if is_raw then mode_raw_input_on s.mode else mode_raw_input_off s.mode
    if !s.set_mode_ok then (Except.error (TtyError.IoError s.os_error), s)
    else (Except.ok (), { s with mode := new_mode })

/-! ## POSIX branch: termios

Flag constants of `nix::sys::termios` (Linux numeric values; only their
identity as distinct one-hot/field masks matters to the proofs). -/

def BRKINT : Nat := 0o000002
def ICRNL : Nat := 0o000400
def INPCK : Nat := 0o000020
def ISTRIP : Nat := 0o000040
def IXON : Nat := 0o002000
def CS8 : Nat := 0o000060
def ECHO : Nat := 0o000010
def ICANON : Nat := 0o000002
def IEXTEN : Nat := 0o100000
def ISIG : Nat := 0o000001

/-- Index of VMIN in `control_chars` (Linux `SpecialCharacterIndices`). -/
def VMIN : Nat := 6
/-- Index of VTIME in `control_chars` (Linux `SpecialCharacterIndices`). -/
def VTIME : Nat := 5

/-- The POSIX terminal attribute structure (`termios::Termios`): flag words
are `tcflag_t` (32-bit), `control_chars` is the `c_cc` array. -/
structure Termios where
  input_flags : Nat
  output_flags : Nat
  control_flags : Nat
  local_flags : Nat
  control_chars : List Nat
deriving DecidableEq, Repr

/-- The raw-mode flag computation of tty.rs lines 139-156, applied to the
baseline mode `t`:  clear BRKINT/ICRNL/INPCK/ISTRIP/IXON in the input flags,
set CS8 in the control flags, clear ECHO/ICANON/IEXTEN in the local flags,
additionally clear ISIG when `cbreak` is false, and set
`control_chars[VMIN] = 1`, `control_chars[VTIME] = 0`. -/
def raw_mode_update (cbreak : Bool) (t : Termios) : Termios :=
  let t1 := { t with input_flags :=
    t.input_flags &&& flagNot (BRKINT ||| ICRNL ||| INPCK ||| ISTRIP ||| IXON) }
  let t2 := { t1 with control_flags := t1.control_flags ||| CS8 }
  let t3 := { t2 with local_flags :=
    t2.local_flags &&& flagNot (ECHO ||| ICANON ||| IEXTEN) }
  let t4 :=
    if !cbreak then { t3 with local_flags := t3.local_flags &&& flagNot ISIG }
    else t3
  { t4 with control_chars := (t4.control_chars.set VMIN 1).set VTIME 0 }

/-- The `SetArg` of `tcsetattr`.  `TCSADRAIN` applies the change after
draining pending output and does not discard unread input; `TCSAFLUSH`
would additionally discard unread input; `TCSANOW` applies immediately. -/
inductive SetArg where
  | TCSANOW : SetArg
  | TCSADRAIN : SetArg
  | TCSAFLUSH : SetArg
deriving DecidableEq, Repr

/-- Observable termios syscalls performed by one `op_stdin_set_raw` call. -/
inductive TcAction where
  | tcgetattr : TcAction
  | tcsetattr : SetArg → Termios → TcAction
deriving DecidableEq, Repr

/-- State visible to the unix branch of `op_stdin_set_raw`: the device's
current attributes (`device`, read by `tcgetattr` and written by
`tcsetattr`), the per-descriptor saved-mode slot `saved`
(`meta_data.tty.mode`), success flags of the syscalls when attempted, and
the OS error code a failing syscall would report. -/
structure UnixSys where
  resolve_ok : Bool
  tcgetattr_ok : Bool
  tcsetattr_ok : Bool
  device : Termios
  saved : Option Termios
  os_error : Nat
deriving DecidableEq, Repr

/-- Unix branch of `op_stdin_set_raw` (tty.rs lines 117-168), returning the
result, the post-call state, and the trace of termios syscalls attempted.

Enable path: under the metadata lock, if the slot is empty the current mode
is read (`tcgetattr`; a failure there propagates with the slot untouched)
and stored in the slot; the baseline is the slot's value.  The raw mode is
computed from the baseline by `raw_mode_update` and applied with
`tcsetattr(TCSADRAIN)`; if the apply fails the slot keeps whatever the lock
block left in it ( the just-saved baseline on a first enable).

Disable path: `meta_data.lock().tty.mode.take()` empties the slot first;
if a mode was taken it is applied with `tcsetattr(TCSADRAIN)`, and a
failure of the apply leaves the slot already emptied.  An empty slot is a
silent no-op. -/
def op_stdin_set_raw_unix (is_raw cbreak : Bool) (s : UnixSys) :
    Except TtyError Unit × UnixSys × List TcAction :=
  if !s.resolve_ok then (Except.error TtyError.ResourceNotFound, s, [])
  else if is_raw then
    match s.saved with
    | none =>
      if !s.tcgetattr_ok then
        (Except.error (TtyError.IoError s.os_error), s, [TcAction.tcgetattr])
      else
        let baseline := s.device
        let s1 := { s with saved := some baseline }
        let raw := raw_mode_update cbreak baseline
        if !s.tcsetattr_ok then
          (Except.error (TtyError.IoError s.os_error), s1,
            [TcAction.tcgetattr, TcAction.tcsetattr SetArg.TCSADRAIN raw])
        else
          (Except.ok (), { s1 with device := raw },
            [TcAction.tcgetattr, TcAction.tcsetattr SetArg.TCSADRAIN raw])
    | some baseline =>
      let raw := raw_mode_update cbreak baseline
      if !s.tcsetattr_ok then
        (Except.error (TtyError.IoError s.os_error), s,
          [TcAction.tcsetattr SetArg.TCSADRAIN raw])
      else
        (Except.ok (), { s with device := raw },
          [TcAction.tcsetattr SetArg.TCSADRAIN raw])
  else
    match s.saved with
    | none => (Except.ok (), s, [])
    | some mode =>
      let s1 := { s with saved := none }
      if !s.tcsetattr_ok then
        (Except.error (TtyError.IoError s.os_error), s1,
          [TcAction.tcsetattr SetArg.TCSADRAIN mode])
      else
        (Except.ok (), { s1 with device := mode },
          [TcAction.tcsetattr SetArg.TCSADRAIN mode])

/-! ## TTY Detector: `op_isatty` -/

/-- What resolving a descriptor yields for `op_isatty`.  On unix, the file's
raw fd is probed with `libc::isatty`, which classifies without failing:
`is_terminal` records its answer.  On Windows the same field records
whether `GetConsoleMode` succeeds on the handle, and `handle_invalid` /
`handle_null` record the two structural-validity failures checked by
`get_windows_handle` (tty.rs lines 20-33). -/
structure FileDesc where
  handle_invalid : Bool
  handle_null : Bool
  is_terminal : Bool
  os_error : Nat
deriving DecidableEq, Repr

/-- Unix branch of `op_isatty` (tty.rs lines 171-206): resolve the rid via
`StdFileResource::with_file` (the `resolve` argument), probe with
`libc::isatty`, write `1` or `0` into `out[0]`, and return `Ok`.  The probe
itself has no failure path. -/
def op_isatty_unix (resolve : Except TtyError FileDesc) (out : List Nat) :
    Except TtyError Unit × List Nat :=
  match resolve with
  | Except.error e => (Except.error e, out)
  | Except.ok f => (Except.ok (), out.set 0 (if f.is_terminal then 1 else 0))

/-- Windows branch of `op_isatty`: after resolution, `get_windows_handle`
fails with `IoError` on the INVALID_HANDLE_VALUE sentinel and with the
"null handle" error on a null handle; otherwise `GetConsoleMode` failing
just means "not a console" and `out[0]` is written `0`, with `Ok` returned. -/
def op_isatty_win (resolve : Except TtyError FileDesc) (out : List Nat) :
    Except TtyError Unit × List Nat :=
  match resolve with
  | Except.error e => (Except.error e, out)
  | Except.ok f =>
    if f.handle_invalid then (Except.error (TtyError.IoError f.os_error), out)
    else if f.handle_null then (Except.error TtyError.InvalidHandle, out)
    else (Except.ok (), out.set 0 (if f.is_terminal then 1 else 0))

/-! ## Size Query: `op_console_size` -/

/-- `ConsoleSize` (tty.rs lines 239-243). -/
structure ConsoleSize where
  cols : Nat
  rows : Nat
deriving DecidableEq, Repr

/-- `check_console_size` (tty.rs lines 213-224): resolve one rid and query
its size (the combined effect of `with_file` and `console_size`, abstracted
as the `probe` argument); on success write cols into `result[0]` and rows
into `result[1]`. A failure leaves the buffer untouched. -/
def check_console_size (probe : Nat → Except TtyError ConsoleSize)
    (result : List Nat) (rid : Nat) : Except TtyError Unit × List Nat :=
  match probe rid with
  | Except.error e => (Except.error e, result)
  | Except.ok size => (Except.ok (), (result.set 0 size.cols).set 1 size.rows)

/-- The `for rid in [0, 1, 2]` loop of `op_console_size` (tty.rs lines
226-236): `last_result` starts as `Ok(())`, each iteration overwrites it
with that rid's outcome and returns early on success; after the loop the
last outcome is returned.  The returned list records the rids probed, in
order. -/
def console_size_loop (probe : Nat → Except TtyError ConsoleSize)
    (rids : List Nat) (result : List Nat) (last : Except TtyError Unit) :
    Except TtyError Unit × List Nat × List Nat :=
  match rids with
  | [] => (last, result, [])
  | rid :: rest =>
    match check_console_size probe result rid with
    | (Except.ok _, buf) => (Except.ok (), buf, [rid])
    | (Except.error e, buf) =>
      let (r, buf2, probed) := console_size_loop probe rest buf (Except.error e)
      (r, buf2, rid :: probed)

/-- `op_console_size` (tty.rs lines 208-237): no descriptor argument — the
rids 0, 1, 2 are fixed inside the operation. -/
def op_console_size (probe : Nat → Except TtyError ConsoleSize)
    (result : List Nat) : Except TtyError Unit × List Nat × List Nat :=
  console_size_loop probe [0, 1, 2] result (Except.ok ())

/-! ## Concrete sample values used by witnesses and counterexamples -/

/-- A representative cooked-mode termios (Linux-style default values). -/
def cookedTermios : Termios :=
  { input_flags := BRKINT ||| ICRNL ||| INPCK ||| ISTRIP ||| IXON
    output_flags := 0o000004
    control_flags := 0o000060
    local_flags := ECHO ||| ICANON ||| IEXTEN ||| ISIG
    control_chars := List.replicate 32 0 }

/-- A second, distinct termios used where two modes are needed. -/
def otherTermios : Termios :=
  { cookedTermios with input_flags := ICRNL, local_flags := ECHO }

/-- A healthy unix state: stdin resolves, syscalls succeed, empty slot. -/
def unixReady : UnixSys :=
  { resolve_ok := true, tcgetattr_ok := true, tcsetattr_ok := true
    device := cookedTermios, saved := none, os_error := 0 }

/-- A state holding a saved mode whose next `tcsetattr` will fail. -/
def unixSavedFailing : UnixSys :=
  { resolve_ok := true, tcgetattr_ok := true, tcsetattr_ok := false
    device := otherTermios, saved := some cookedTermios, os_error := 5 }

/-- A probe where only rid 2 (stderr) is terminal-backed. -/
def onlyStderrProbe (rid : Nat) : Except TtyError ConsoleSize :=
  if rid = 2 then Except.ok { cols := 80, rows := 24 }
  else Except.error (TtyError.IoError 25)

/-- A probe where no rid is terminal-backed. -/
def noTtyProbe (rid : Nat) : Except TtyError ConsoleSize :=
  Except.error (TtyError.IoError (25 + rid))

/-- A resolved, structurally valid, non-terminal handle (a regular file). -/
def regularFile : FileDesc :=
  { handle_invalid := false, handle_null := false, is_terminal := false
    os_error := 0 }

/-- A healthy Windows console state with mode word 0. -/
def winZero : WinSys :=
  { resolve_ok := true, handle_invalid := false, handle_null := false
    get_mode_ok := true, set_mode_ok := true, mode := 0, os_error := 0 }

/-- A healthy Windows console state with the Win10/CMD cooked mode 0xf7. -/
def winCmd : WinSys := { winZero with mode := 0xf7 }

/-! ## Bitwise helper lemmas -/

/-- Clearing by a mask kills every sub-mask of bits that the complement lacks. -/
theorem land_land_eq_zero (x a b : Nat) (h : a &&& b = 0) :
    x &&& a &&& b = 0 := by
  rw [Nat.and_assoc, h, Nat.and_zero]

/-- Bits kept by the mask pass through a clearing step unchanged. -/
theorem land_mask_keep (x a f : Nat) (h : a &&& f = f) :
    (x &&& a) &&& f = x &&& f := by
  rw [Nat.and_assoc, h]

/-- Setting bits makes them read back set. -/
theorem lor_land_self (x c : Nat) : (x ||| c) &&& c = c := by
  apply Nat.eq_of_testBit_eq
  intro i
  simp only [Nat.testBit_and, Nat.testBit_or]
  cases x.testBit i <;> cases c.testBit i <;> rfl

/-- Setting bits leaves disjoint bits unchanged. -/
theorem lor_land_of_disjoint (x c a : Nat) (h : c &&& a = 0) :
    (x ||| c) &&& a = x &&& a := by
  apply Nat.eq_of_testBit_eq
  intro i
  have hi := congrArg (fun n => n.testBit i) h
  simp only [Nat.testBit_and, Nat.zero_testBit] at hi
  simp only [Nat.testBit_and, Nat.testBit_or]
  cases hx : x.testBit i <;> cases hc : c.testBit i <;>
    cases ha : a.testBit i <;> simp_all

/-- A 32-bit word cleared by `&&& flagNot mask` agrees with the original
word once any superset of the mask's bits is OR-ed back in. -/
theorem land_flagNot_lor (x mask big : Nat) (h32 : x < 2 ^ 32)
    (hm : mask < 2 ^ 32) (hsub : mask &&& big = mask) :
    (x &&& flagNot mask) ||| big = x ||| big := by
  apply Nat.eq_of_testBit_eq
  intro i
  have hs := congrArg (fun n => n.testBit i) hsub
  simp only [Nat.testBit_and] at hs
  simp only [flagNot, Nat.testBit_or, Nat.testBit_and, Nat.testBit_xor,
    Nat.testBit_two_pow_sub_one]
  rcases Nat.lt_or_ge i 32 with hi | hi
  · simp only [hi, decide_True, Bool.true_xor]
    cases hx : x.testBit i <;> cases hb : big.testBit i <;>
      cases hmm : mask.testBit i <;> simp_all
  · have hp : (2 : Nat) ^ 32 ≤ 2 ^ i := Nat.pow_le_pow_right (by norm_num) hi
    have hx : x.testBit i = false :=
      Nat.testBit_lt_two_pow (lt_of_lt_of_le h32 hp)
    have hmb : mask.testBit i = false :=
      Nat.testBit_lt_two_pow (lt_of_lt_of_le hm hp)
    have : decide (i < 32) = false := by simp; omega
    simp [hx, hmb, this]

/-! ## Claim theorems -/

/-- C3: calling `op_stdin_set_raw` with `is_raw = false` on a descriptor
whose saved-mode slot is empty returns success and changes nothing: the
device mode is untouched (no `tcsetattr` is attempted at all) and no error
is produced — a silent no-op. -/
theorem C3_disable_empty_slot_noop (cbreak : Bool) (s : UnixSys)
    (hres : s.resolve_ok = true) (hslot : s.saved = none) :
    op_stdin_set_raw_unix false cbreak s = (Except.ok (), s, []) := by
  simp [op_stdin_set_raw_unix, hres, hslot]

/-- Witness for C3 at a concrete healthy state. -/
theorem C3_witness :
    unixReady.resolve_ok = true ∧ unixReady.saved = none ∧
    op_stdin_set_raw_unix false false unixReady = (Except.ok (), unixReady, []) :=
  ⟨rfl, rfl, C3_disable_empty_slot_noop false unixReady rfl rfl⟩

/-- C4: two consecutive enable calls with no intervening disable: the first
call saves the pre-raw baseline (the device mode it read) in the slot; the
second call leaves that slot value untouched (never overwrites it), succeeds,
and produces exactly the device mode a single enable from the same baseline
produces. -/
theorem C4_idempotent_reentry (cbreak : Bool) (s : UnixSys)
    (hres : s.resolve_ok = true) (hslot : s.saved = none)
    (hget : s.tcgetattr_ok = true) (hset : s.tcsetattr_ok = true) :
    (op_stdin_set_raw_unix true cbreak s).2.1.saved = some s.device ∧
    (op_stdin_set_raw_unix true cbreak
      (op_stdin_set_raw_unix true cbreak s).2.1).2.1.saved = some s.device ∧
    (op_stdin_set_raw_unix true cbreak
      (op_stdin_set_raw_unix true cbreak s).2.1).2.1.device
      = (op_stdin_set_raw_unix true cbreak s).2.1.device ∧
    (op_stdin_set_raw_unix true cbreak
      (op_stdin_set_raw_unix true cbreak s).2.1).1 = Except.ok () := by
  simp [op_stdin_set_raw_unix, hres, hslot, hget, hset]

/-- Witness for C4 at a concrete healthy state. -/
theorem C4_witness :
    (op_stdin_set_raw_unix true false unixReady).2.1.saved
        = some unixReady.device ∧
    (op_stdin_set_raw_unix true false
      (op_stdin_set_raw_unix true false unixReady).2.1).2.1.saved
        = some unixReady.device ∧
    (op_stdin_set_raw_unix true false
      (op_stdin_set_raw_unix true false unixReady).2.1).2.1.device
      = (op_stdin_set_raw_unix true false unixReady).2.1.device ∧
    (op_stdin_set_raw_unix true false
      (op_stdin_set_raw_unix true false unixReady).2.1).1 = Except.ok () :=
  C4_idempotent_reentry false unixReady rfl rfl rfl rfl

/-- C5: on the Windows branch, `cbreak = true` is rejected with
`NotSupported` before anything else runs: the returned state is exactly the
input state, for both values of `is_raw` and every starting state. -/
theorem C5_win_cbreak_not_supported (is_raw : Bool) (s : WinSys) :
    op_stdin_set_raw_win is_raw true s
      = (Except.error TtyError.NotSupported, s) := by
  simp [op_stdin_set_raw_win]

/-- C10: the `cbreak` rejection precedes descriptor resolution: even when
rid 0 does not resolve to an open handle, `cbreak = true` yields
`NotSupported`, not `ResourceNotFound`. -/
theorem C10_cbreak_precedes_resolution (is_raw : Bool) (s : WinSys)
    (_h : s.resolve_ok = false) :
    (op_stdin_set_raw_win is_raw true s).1
      = Except.error TtyError.NotSupported := by
  simp [op_stdin_set_raw_win]

/-- Witness for C10: a state whose stdin does not resolve. -/
theorem C10_witness :
    ({ resolve_ok := false, handle_invalid := false, handle_null := false
       get_mode_ok := true, set_mode_ok := true, mode := 0x1f7
       os_error := 9 } : WinSys).resolve_ok = false ∧
    (op_stdin_set_raw_win true true
      { resolve_ok := false, handle_invalid := false, handle_null := false
        get_mode_ok := true, set_mode_ok := true, mode := 0x1f7
        os_error := 9 }).1 = Except.error TtyError.NotSupported :=
  ⟨rfl, C10_cbreak_precedes_resolution true _ rfl⟩

/-- C7: `op_console_size` takes no descriptor argument and probes rids
0, 1, 2 in exactly that order: it returns the dimensions of the first rid
whose probe succeeds, swallowing earlier per-rid failures, and when all
three probes fail it returns the failure of the last attempted rid (2,
stderr), not the first. -/
theorem C7_console_size_probe_order (probe : Nat → Except TtyError ConsoleSize)
    (buf : List Nat) :
    (∀ s0, probe 0 = Except.ok s0 →
      op_console_size probe buf
        = (Except.ok (), (buf.set 0 s0.cols).set 1 s0.rows, [0])) ∧
    (∀ e0 s1, probe 0 = Except.error e0 → probe 1 = Except.ok s1 →
      op_console_size probe buf
        = (Except.ok (), (buf.set 0 s1.cols).set 1 s1.rows, [0, 1])) ∧
    (∀ e0 e1 s2, probe 0 = Except.error e0 → probe 1 = Except.error e1 →
      probe 2 = Except.ok s2 →
      op_console_size probe buf
        = (Except.ok (), (buf.set 0 s2.cols).set 1 s2.rows, [0, 1, 2])) ∧
    (∀ e0 e1 e2, probe 0 = Except.error e0 → probe 1 = Except.error e1 →
      probe 2 = Except.error e2 →
      op_console_size probe buf = (Except.error e2, buf, [0, 1, 2])) := by
  refine ⟨?_, ?_, ?_, ?_⟩
  · intro s0 h0
    simp [op_console_size, console_size_loop, check_console_size, h0]
  · intro e0 s1 h0 h1
    simp [op_console_size, console_size_loop, check_console_size, h0, h1]
  · intro e0 e1 s2 h0 h1 h2
    simp [op_console_size, console_size_loop, check_console_size, h0, h1, h2]
  · intro e0 e1 e2 h0 h1 h2
    simp [op_console_size, console_size_loop, check_console_size, h0, h1, h2]

/-- Witness for C7: stdin and stdout fail, stderr answers 80x24. -/
theorem C7_witness :
    op_console_size onlyStderrProbe [7, 7]
      = (Except.ok (), [80, 24], [0, 1, 2]) := by
  have h := (C7_console_size_probe_order onlyStderrProbe [7, 7]).2.2.1
    (TtyError.IoError 25) (TtyError.IoError 25) { cols := 80, rows := 24 }
    rfl rfl rfl
  simpa using h

/-- C9: the caller's buffer is written only by a successful per-rid probe
(a failing probe returns the buffer exactly as given), and when every probe
fails the operation returns an error with the buffer bit-for-bit as the
caller passed it in — no partial or stale write. -/
theorem C9_console_size_frame (probe : Nat → Except TtyError ConsoleSize)
    (buf : List Nat) (h : ∀ rid sz, probe rid ≠ Except.ok sz) :
    (∀ buf2 rid e, probe rid = Except.error e →
      check_console_size probe buf2 rid = (Except.error e, buf2)) ∧
    (∃ e, (op_console_size probe buf).1 = Except.error e) ∧
    (op_console_size probe buf).2.1 = buf := by
  refine ⟨?_, ?_⟩
  · intro buf2 rid e he
    simp [check_console_size, he]
  · cases h0 : probe 0 with
    | ok sz => exact absurd h0 (h 0 sz)
    | error e0 =>
      cases h1 : probe 1 with
      | ok sz => exact absurd h1 (h 1 sz)
      | error e1 =>
        cases h2 : probe 2 with
        | ok sz => exact absurd h2 (h 2 sz)
        | error e2 =>
          refine ⟨⟨e2, ?_⟩, ?_⟩ <;>
            simp [op_console_size, console_size_loop, check_console_size,
              h0, h1, h2]

/-- Witness for C9: all probes fail, the buffer [7, 7] comes back as is. -/
theorem C9_witness :
    (∃ e, (op_console_size noTtyProbe [7, 7]).1 = Except.error e) ∧
    (op_console_size noTtyProbe [7, 7]).2.1 = [7, 7] :=
  (C9_console_size_frame noTtyProbe [7, 7]
    (fun rid sz h => by simp [noTtyProbe] at h)).2

/-- C8: `op_isatty` never fails merely because the handle is not a
terminal: on both branches a resolved, structurally valid handle yields
success with `out[0]` recording terminal-ness (`0` for a regular file);
an error can only arise from failed resolution (either branch) or, on the
Windows branch, from a structurally invalid (sentinel or null) handle. -/
theorem C8_isatty_no_error_for_non_terminal :
    (∀ (f : FileDesc) (out : List Nat),
      op_isatty_unix (Except.ok f) out
        = (Except.ok (), out.set 0 (if f.is_terminal then 1 else 0))) ∧
    (∀ (f : FileDesc) (out : List Nat), f.handle_invalid = false →
      f.handle_null = false →
      op_isatty_win (Except.ok f) out
        = (Except.ok (), out.set 0 (if f.is_terminal then 1 else 0))) ∧
    (∀ (resolve : Except TtyError FileDesc) (out : List Nat) (e : TtyError),
      (op_isatty_unix resolve out).1 = Except.error e →
      resolve = Except.error e) ∧
    (∀ (f : FileDesc) (out : List Nat) (e : TtyError),
      (op_isatty_win (Except.ok f) out).1 = Except.error e →
      f.handle_invalid = true ∨ f.handle_null = true) := by
  refine ⟨?_, ?_, ?_, ?_⟩
  · intro f out
    simp [op_isatty_unix]
  · intro f out hinv hnull
    simp [op_isatty_win, hinv, hnull]
  · intro resolve out e he
    cases resolve with
    | ok f => simp [op_isatty_unix] at he
    | error e2 => simpa [op_isatty_unix] using he
  · intro f out e he
    by_contra hc
    push_neg at hc
    have h1 : f.handle_invalid = false := by
      cases hfi : f.handle_invalid
      · rfl
      · exact absurd hfi hc.1
    have h2 : f.handle_null = false := by
      cases hfn : f.handle_null
      · rfl
      · exact absurd hfn hc.2
    simp [op_isatty_win, h1, h2] at he

/-- Witness for C8: a regular file yields `Ok` with `out[0] = 0` on both
branches. -/
theorem C8_witness :
    op_isatty_unix (Except.ok regularFile) [9] = (Except.ok (), [0]) ∧
    op_isatty_win (Except.ok regularFile) [9] = (Except.ok (), [0]) := by
  refine ⟨?_, ?_⟩
  · simpa using C8_isatty_no_error_for_non_terminal.1 regularFile [9]
  · simpa using
      C8_isatty_no_error_for_non_terminal.2.1 regularFile [9] rfl rfl

/-- Counterexample to C2 as stated: on a disable call whose apply step
fails, the saved-mode slot does NOT keep the value it held before the call.
Before the call the slot holds `cookedTermios`; the call returns
`IoError 5`, yet afterwards the slot is empty — `tty.mode.take()` consumed
the saved mode before the failing `tcsetattr`, so a later disable cannot
retry the restore. -/
theorem C2_counterexample :
    unixSavedFailing.saved = some cookedTermios ∧
    (op_stdin_set_raw_unix false false unixSavedFailing).1
      = Except.error (TtyError.IoError 5) ∧
    (op_stdin_set_raw_unix false false unixSavedFailing).2.1.saved = none :=
  ⟨rfl, rfl, rfl⟩

/-- C2 amended: when the apply step (`tcsetattr`) fails, the operation
returns an `IoError` carrying the OS error code, and the saved-mode slot is
left as follows: an enable re-entry (slot already occupied) leaves it
unchanged; a first enable leaves it holding the just-read original mode
(the slot was populated before the failed apply, so it differs from the
empty pre-call value); a disable leaves it empty — the saved mode is
consumed by `take()` before the failing apply, so a later disable is a
silent no-op, not a retry of the restore.  A failing mode read
(`tcgetattr`) leaves the slot exactly as it was. -/
theorem C2_amended_apply_failure (cbreak : Bool) (s : UnixSys)
    (hres : s.resolve_ok = true) (hset : s.tcsetattr_ok = false) :
    (∀ b, s.saved = some b →
      op_stdin_set_raw_unix true cbreak s
        = (Except.error (TtyError.IoError s.os_error), s,
            [TcAction.tcsetattr SetArg.TCSADRAIN (raw_mode_update cbreak b)])) ∧
    (s.saved = none → s.tcgetattr_ok = true →
      op_stdin_set_raw_unix true cbreak s
        = (Except.error (TtyError.IoError s.os_error),
            { s with saved := some s.device },
            [TcAction.tcgetattr,
             TcAction.tcsetattr SetArg.TCSADRAIN
               (raw_mode_update cbreak s.device)])) ∧
    (∀ b, s.saved = some b →
      op_stdin_set_raw_unix false cbreak s
        = (Except.error (TtyError.IoError s.os_error), { s with saved := none },
            [TcAction.tcsetattr SetArg.TCSADRAIN b])) ∧
    (s.saved = none → s.tcgetattr_ok = false →
      op_stdin_set_raw_unix true cbreak s
        = (Except.error (TtyError.IoError s.os_error), s,
            [TcAction.tcgetattr])) := by
  refine ⟨?_, ?_, ?_, ?_⟩
  · intro b hb
    simp [op_stdin_set_raw_unix, hres, hset, hb]
  · intro hb hget
    simp [op_stdin_set_raw_unix, hres, hset, hb, hget]
  · intro b hb
    simp [op_stdin_set_raw_unix, hres, hset, hb]
  · intro hb hget
    simp [op_stdin_set_raw_unix, hres, hset, hb, hget]

/-- Witness for the amended C2 at a concrete state: the disable-failure
conjunct applied to a slot holding `cookedTermios`. -/
theorem C2_witness :
    unixSavedFailing.resolve_ok = true ∧
    unixSavedFailing.tcsetattr_ok = false ∧
    op_stdin_set_raw_unix false false unixSavedFailing
      = (Except.error (TtyError.IoError 5),
          { unixSavedFailing with saved := none },
          [TcAction.tcsetattr SetArg.TCSADRAIN cookedTermios]) :=
  ⟨rfl, rfl,
    (C2_amended_apply_failure false unixSavedFailing rfl rfl).2.2.1
      cookedTermios rfl⟩

/-- The input-flag word of the raw mode, for either `cbreak`. -/
theorem raw_input_flags (cbreak : Bool) (t : Termios) :
    (raw_mode_update cbreak t).input_flags
      = t.input_flags &&& flagNot (BRKINT ||| ICRNL ||| INPCK ||| ISTRIP ||| IXON) := by
  cases cbreak <;> rfl

/-- The control-flag word of the raw mode, for either `cbreak`. -/
theorem raw_control_flags (cbreak : Bool) (t : Termios) :
    (raw_mode_update cbreak t).control_flags = t.control_flags ||| CS8 := by
  cases cbreak <;> rfl

/-- The local-flag word of the raw mode when `cbreak` is true. -/
theorem raw_local_flags_cbreak (t : Termios) :
    (raw_mode_update true t).local_flags
      = t.local_flags &&& flagNot (ECHO ||| ICANON ||| IEXTEN) := rfl

/-- The local-flag word of the raw mode when `cbreak` is false. -/
theorem raw_local_flags_nocbreak (t : Termios) :
    (raw_mode_update false t).local_flags
      = t.local_flags &&& flagNot (ECHO ||| ICANON ||| IEXTEN) &&& flagNot ISIG := rfl

/-- The control-character array of the raw mode, for either `cbreak`. -/
theorem raw_control_chars (cbreak : Bool) (t : Termios) :
    (raw_mode_update cbreak t).control_chars
      = (t.control_chars.set VMIN 1).set VTIME 0 := by
  cases cbreak <;> rfl

/-- C6: the POSIX raw-mode computation.  From any 32-bit baseline the new
mode has BRKINT/ICRNL/INPCK/ISTRIP/IXON cleared in the input flags (and no
other input bit changed), CS8 set in the control flags (and no other
control bit changed), ECHO/ICANON/IEXTEN cleared in the local flags, ISIG
cleared exactly when `cbreak` is false (and kept intact when `cbreak` is
true; no local bit outside these four changes), `control_chars[VMIN] = 1`
and `control_chars[VTIME] = 0`; and a successful first enable applies
exactly this mode to the device with `tcsetattr(TCSADRAIN)` — drain-on-set,
which does not discard unread input. -/
theorem C6_raw_flag_computation (cbreak : Bool) (t : Termios)
    (hin : t.input_flags < 2 ^ 32) (hloc : t.local_flags < 2 ^ 32)
    (hcc : t.control_chars.length = 32) :
    (raw_mode_update cbreak t).input_flags &&&
        (BRKINT ||| ICRNL ||| INPCK ||| ISTRIP ||| IXON) = 0 ∧
    (raw_mode_update cbreak t).input_flags |||
        (BRKINT ||| ICRNL ||| INPCK ||| ISTRIP ||| IXON)
      = t.input_flags ||| (BRKINT ||| ICRNL ||| INPCK ||| ISTRIP ||| IXON) ∧
    (raw_mode_update cbreak t).control_flags &&& CS8 = CS8 ∧
    (raw_mode_update cbreak t).control_flags &&& flagNot CS8
      = t.control_flags &&& flagNot CS8 ∧
    (raw_mode_update cbreak t).local_flags &&& (ECHO ||| ICANON ||| IEXTEN) = 0 ∧
    (cbreak = false → (raw_mode_update cbreak t).local_flags &&& ISIG = 0) ∧
    (cbreak = true → (raw_mode_update cbreak t).local_flags &&& ISIG
      = t.local_flags &&& ISIG) ∧
    (raw_mode_update cbreak t).local_flags |||
        (ECHO ||| ICANON ||| IEXTEN ||| ISIG)
      = t.local_flags ||| (ECHO ||| ICANON ||| IEXTEN ||| ISIG) ∧
    (raw_mode_update cbreak t).control_chars[VMIN]? = some 1 ∧
    (raw_mode_update cbreak t).control_chars[VTIME]? = some 0 ∧
    (∀ s : UnixSys, s.resolve_ok = true → s.saved = none →
      s.tcgetattr_ok = true → s.tcsetattr_ok = true →
      op_stdin_set_raw_unix true cbreak s
        = (Except.ok (),
            { s with saved := some s.device,
                     device := raw_mode_update cbreak s.device },
            [TcAction.tcgetattr,
             TcAction.tcsetattr SetArg.TCSADRAIN
               (raw_mode_update cbreak s.device)])) := by
  refine ⟨?_, ?_, ?_, ?_, ?_, ?_, ?_, ?_, ?_, ?_, ?_⟩
  · rw [raw_input_flags]
    exact land_land_eq_zero _ _ _ (by decide)
  · rw [raw_input_flags]
    exact land_flagNot_lor _ _ _ hin (by decide) (by decide)
  · rw [raw_control_flags]
    exact lor_land_self _ _
  · rw [raw_control_flags]
    exact lor_land_of_disjoint _ _ _ (by decide)
  · cases cbreak
    · rw [raw_local_flags_nocbreak,
        land_mask_keep _ (flagNot ISIG) _ (by decide)]
      exact land_land_eq_zero _ _ _ (by decide)
    · rw [raw_local_flags_cbreak]
      exact land_land_eq_zero _ _ _ (by decide)
  · intro hbr
    subst hbr
    rw [raw_local_flags_nocbreak]
    exact land_land_eq_zero _ _ _ (by decide)
  · intro hbr
    subst hbr
    rw [raw_local_flags_cbreak]
    exact land_mask_keep _ _ _ (by decide)
  · cases cbreak
    · rw [raw_local_flags_nocbreak, Nat.and_assoc]
      have hde : flagNot (ECHO ||| ICANON ||| IEXTEN) &&& flagNot ISIG
          = flagNot (ECHO ||| ICANON ||| IEXTEN ||| ISIG) := by decide
      rw [hde]
      exact land_flagNot_lor _ _ _ hloc (by decide) (by decide)
    · rw [raw_local_flags_cbreak]
      exact land_flagNot_lor _ _ _ hloc (by decide) (by decide)
  · rw [raw_control_chars]
    rw [List.getElem?_set_ne (by decide : VTIME ≠ VMIN)]
    rw [List.getElem?_set_self (by simp [hcc, VMIN])]
  · rw [raw_control_chars]
    rw [List.getElem?_set_self (by simp [hcc, VTIME])]
  · intro s h1 h2 h3 h4
    simp [op_stdin_set_raw_unix, h1, h2, h3, h4]

/-- Witness for C6 at the representative cooked baseline and the healthy
unix state. -/
theorem C6_witness :
    (cookedTermios.input_flags < 2 ^ 32 ∧ cookedTermios.local_flags < 2 ^ 32 ∧
      cookedTermios.control_chars.length = 32) ∧
    (raw_mode_update false cookedTermios).local_flags &&& ISIG = 0 ∧
    (raw_mode_update false cookedTermios).control_chars[VMIN]? = some 1 ∧
    op_stdin_set_raw_unix true false unixReady
      = (Except.ok (),
          { unixReady with saved := some cookedTermios,
                           device := raw_mode_update false cookedTermios },
          [TcAction.tcgetattr,
           TcAction.tcsetattr SetArg.TCSADRAIN
             (raw_mode_update false cookedTermios)]) := by
  have h := C6_raw_flag_computation false cookedTermios (by decide) (by decide)
    (by decide)
  exact ⟨⟨by decide, by decide, by decide⟩, h.2.2.2.2.2.1 rfl,
    h.2.2.2.2.2.2.2.2.1, h.2.2.2.2.2.2.2.2.2.2 unixReady rfl rfl rfl rfl⟩

/-- On the Windows branch, `mode_raw_input_off ∘ mode_raw_input_on` is the
identity exactly on cooked-looking mode words: all `COOKED_MODE` bits set
and the virtual-terminal-input bit clear. -/
theorem win_cooked_round_trip (m : Nat) (h32 : m < 2 ^ 32)
    (hc : m &&& COOKED_MODE = COOKED_MODE)
    (hv : m &&& ENABLE_VIRTUAL_TERMINAL_INPUT = 0) :
    mode_raw_input_off (mode_raw_input_on m) = m := by
  apply Nat.eq_of_testBit_eq
  intro i
  have hci := congrArg (fun n => n.testBit i) hc
  have hvi := congrArg (fun n => n.testBit i) hv
  simp only [Nat.testBit_and, Nat.zero_testBit] at hci hvi
  simp only [mode_raw_input_off, mode_raw_input_on, flagNot,
    Nat.testBit_or, Nat.testBit_and, Nat.testBit_xor,
    Nat.testBit_two_pow_sub_one]
  rcases Nat.lt_or_ge i 32 with hi | hi
  · simp only [hi, decide_True, Bool.true_xor]
    revert hci hvi
    cases hm : m.testBit i <;> cases hcb : COOKED_MODE.testBit i <;>
      cases hvb : ENABLE_VIRTUAL_TERMINAL_INPUT.testBit i <;> simp
  · have hp : (2 : Nat) ^ 32 ≤ 2 ^ i := Nat.pow_le_pow_right (by norm_num) hi
    have hm : m.testBit i = false :=
      Nat.testBit_lt_two_pow (lt_of_lt_of_le h32 hp)
    have hcb : COOKED_MODE.testBit i = false :=
      Nat.testBit_lt_two_pow (lt_of_lt_of_le (by decide) hp)
    have hvb : ENABLE_VIRTUAL_TERMINAL_INPUT.testBit i = false :=
      Nat.testBit_lt_two_pow (lt_of_lt_of_le (by decide) hp)
    have hd : decide (i < 32) = false := by simp; omega
    simp [hm, hcb, hvb, hd]

/-- Counterexample to C1 as stated: on the Windows branch the round trip is
not the identity for every starting mode.  Starting from mode word 0,
enable followed by disable leaves the console mode at `COOKED_MODE = 7`,
not at the original 0 — `mode_raw_input_off` rebuilds cooked mode by
masking, it does not restore a saved value. -/
theorem C1_counterexample :
    winZero.mode = 0 ∧
    (op_stdin_set_raw_win false false
      (op_stdin_set_raw_win true false winZero).2).2.mode = 7 := by
  exact ⟨rfl, by decide⟩

/-- C1 amended: on the POSIX branch the enable-then-disable round trip
restores the device mode bit-for-bit from every starting mode (the disable
re-applies the saved baseline verbatim).  On the Windows branch the round
trip is the identity only for baselines whose `COOKED_MODE` bits are all
set and whose virtual-terminal-input bit is clear — which both
representative terminal defaults 0xf7 (Win10/CMD) and 0x1f7 (Win10/Windows
Terminal) satisfy — but not for arbitrary mode words. -/
theorem C1_round_trip (cbreak cbreak2 : Bool) (s : UnixSys) (w : WinSys)
    (hres : s.resolve_ok = true) (hslot : s.saved = none)
    (hget : s.tcgetattr_ok = true) (hset : s.tcsetattr_ok = true)
    (wres : w.resolve_ok = true) (winv : w.handle_invalid = false)
    (wnull : w.handle_null = false) (wget : w.get_mode_ok = true)
    (wset : w.set_mode_ok = true) (w32 : w.mode < 2 ^ 32)
    (wc : w.mode &&& COOKED_MODE = COOKED_MODE)
    (wv : w.mode &&& ENABLE_VIRTUAL_TERMINAL_INPUT = 0) :
    (op_stdin_set_raw_unix false cbreak2
        (op_stdin_set_raw_unix true cbreak s).2.1).2.1.device = s.device ∧
    (op_stdin_set_raw_unix false cbreak2
        (op_stdin_set_raw_unix true cbreak s).2.1).1 = Except.ok () ∧
    (op_stdin_set_raw_win false false
        (op_stdin_set_raw_win true false w).2).2.mode = w.mode ∧
    mode_raw_input_off (mode_raw_input_on 0xf7) = 0xf7 ∧
    mode_raw_input_off (mode_raw_input_on 0x1f7) = 0x1f7 := by
  refine ⟨?_, ?_, ?_, by decide, by decide⟩
  · simp [op_stdin_set_raw_unix, hres, hslot, hget, hset]
  · simp [op_stdin_set_raw_unix, hres, hslot, hget, hset]
  · simp [op_stdin_set_raw_win, wres, winv, wnull, wget, wset]
    exact win_cooked_round_trip w.mode w32 wc wv

/-- Witness for the amended C1: the unix round trip from the healthy cooked
state, and the Windows round trip from the Win10/CMD default 0xf7. -/
theorem C1_witness :
    (op_stdin_set_raw_unix false false
        (op_stdin_set_raw_unix true false unixReady).2.1).2.1.device
      = unixReady.device ∧
    (op_stdin_set_raw_unix false false
        (op_stdin_set_raw_unix true false unixReady).2.1).1 = Except.ok () ∧
    (op_stdin_set_raw_win false false
        (op_stdin_set_raw_win true false winCmd).2).2.mode = winCmd.mode ∧
    mode_raw_input_off (mode_raw_input_on 0xf7) = 0xf7 ∧
    mode_raw_input_off (mode_raw_input_on 0x1f7) = 0x1f7 :=
  C1_round_trip false false unixReady winCmd rfl rfl rfl rfl rfl rfl rfl rfl
    rfl (by decide) (by decide) (by decide)
